import Mathlib

/-!
Shallow embedding of the StampFly ESP-IDF HAL core
(components/hal: hal_base, adc_hal, i2c_hal, gpio_hal, interrupt_hal)
and proofs about its specified behaviour.

Conventions of the embedding:
* `esp_err_t` values are the inductive `EspErr`.
* C++ `std::map` members are association lists with `List.lookup`,
  updated by `mapInsert` / `mapErase` (first-match semantics, which agrees
  with `std::map` on every reachable state: keys are unique).
* Hardware and ESP-IDF driver calls are oracles passed in explicitly
  (structures of functions), so each HAL operation is a pure function of
  its receiver state, its arguments and the oracle.
* ADC raw codes delivered by `adc_oneshot_read` are modelled as `Nat`
  (the driver writes a code in `[0, 4095]`); `int` results such as
  `ReadResult.raw_value` and `voltage_mv` are `Int`.
* `float` quantities of the EMA filter are modelled as exact rationals;
  `static_cast<int>` on them is `cppTrunc` (round toward zero).
* 32-bit unsigned wrap-around of `int * uint32_t` arithmetic is kept
  explicit (`% 2 ^ 32`) where the source performs it.
-/

namespace hal

/-- ESP-IDF error codes used by the HAL sources. -/
inductive EspErr where
  | ESP_OK
  | ESP_FAIL
  | ESP_ERR_NO_MEM
  | ESP_ERR_INVALID_ARG
  | ESP_ERR_INVALID_STATE
  | ESP_ERR_NOT_FOUND
  | ESP_ERR_TIMEOUT
  deriving DecidableEq

/-- Lifecycle states of `HalBase::State` (hal_base.hpp lines 34-41). -/
inductive HalBase.State where
  | UNINITIALIZED
  | INITIALIZING
  | INITIALIZED
  | RUNNING
  | ERROR
  | SUSPENDED
  deriving DecidableEq

/-- `HalBase::isInitialized` (hal_base.hpp lines 112-114):
`state_ == State::INITIALIZED || state_ == State::RUNNING`. -/
def HalBase.State.isInitialized (s : HalBase.State) : Bool :=
  s == .INITIALIZED || s == .RUNNING

/-- `HalBase::isRunning` (hal_base.hpp line 120): `state_ == State::RUNNING`. -/
def HalBase.State.isRunning (s : HalBase.State) : Bool :=
  s == .RUNNING

/-- `HalBase::hasError` (hal_base.hpp line 106): `state_ == State::ERROR`. -/
def HalBase.State.hasError (s : HalBase.State) : Bool :=
  s == .ERROR

/-- Insert/overwrite a key in an association list, as `map[k] = v` does
on the unique-key `std::map`. -/
def mapInsert {α : Type} (m : List (Nat × α)) (k : Nat) (v : α) : List (Nat × α) :=
  (k, v) :: m.filter (fun p => !(p.1 == k))

/-- Remove a key from an association list, as `map.erase(k)` does on the
unique-key `std::map`. -/
def mapErase {α : Type} (m : List (Nat × α)) (k : Nat) : List (Nat × α) :=
  m.filter (fun p => !(p.1 == k))

/-- Truncation of a rational toward zero: the value of C++
`static_cast<int>` applied to a (here exactly represented) `float`. -/
def cppTrunc (q : ℚ) : Int :=
  Int.tdiv q.num (q.den : Int)

namespace AdcHal

/-- `AdcHal::Unit` (adc_hal.hpp lines 37-40). -/
inductive Unit where
  | UNIT_1
  | UNIT_2
  deriving DecidableEq

/-- `AdcHal::Attenuation` (adc_hal.hpp lines 45-50). -/
inductive Attenuation where
  | DB_0
  | DB_2_5
  | DB_6
  | DB_11
  deriving DecidableEq

/-- `AdcHal::BitWidth` (adc_hal.hpp lines 55-62). -/
inductive BitWidth where
  | WIDTH_9BIT
  | WIDTH_10BIT
  | WIDTH_11BIT
  | WIDTH_12BIT
  | WIDTH_13BIT
  | WIDTH_DEFAULT
  deriving DecidableEq

/-- `AdcHal::ChannelConfig` (adc_hal.hpp lines 67-71). -/
structure ChannelConfig where
  channel : Nat
  attenuation : Attenuation
  calibration_enable : Bool
  deriving DecidableEq

/-- `AdcHal::Config` (adc_hal.hpp lines 76-80); `default_vref` is `uint32_t`. -/
structure Config where
  unit : Unit
  bit_width : BitWidth
  default_vref : Nat
  deriving DecidableEq

/-- `AdcHal::ReadResult` (adc_hal.hpp lines 85-89). -/
structure ReadResult where
  raw_value : Int
  voltage_mv : Int
  calibrated : Bool
  deriving DecidableEq

/-- A created calibration scheme handle, seen through
`adc_cali_raw_to_voltage`: for a raw code it either succeeds and yields the
calibrated voltage (mV), or fails, in which case the driver leaves the
caller's output variable untouched. -/
abbrev CalHandle : Type := Int → Option Int

/-- The mutable members of one `AdcHal` instance
(adc_hal.hpp private section): lifecycle state from `HalBase`, `config_`,
`channels_`, `calibration_handles_` (only non-null handles are ever
stored, see `createCalibrationHandle`), and `filter_values_`. -/
structure AdcState where
  state : HalBase.State
  config : Config
  channels : List (Nat × ChannelConfig)
  calibration_handles : List (Nat × CalHandle)
  filter_values : List (Nat × ℚ)

/-- Oracle for the external ESP-IDF ADC driver calls made by `AdcHal`.
`oneshot_read ch i` is the outcome of the `i`-th `adc_oneshot_read` of
channel `ch` within one HAL operation (the driver writes a raw code in
`[0, 4095]`, modelled as `Nat`). `config_channel_hw ch` is the
hardware-level outcome of `adc_oneshot_config_channel` for a channel that
passed the driver's range validation. `cali_create ch atten` is the
outcome of `adc_cali_create_scheme_curve_fitting`. -/
structure Hw where
  oneshot_read : Nat → Nat → Except EspErr Nat
  config_channel_hw : Nat → EspErr
  cali_create : Nat → Attenuation → Except EspErr CalHandle

/-- Number of channels of one ESP32-S3 ADC unit. Modelled from the
ESP-IDF target definition (`SOC_ADC_CHANNEL_NUM` is 10 for ESP32-S3, so
channels 0..9 are valid — the same range the unused helper
`AdcHal::isValidChannel`, adc_hal.cpp lines 367-374, spells out). -/
def SOC_ADC_CHANNEL_NUM : Nat := 10

/-- Modelled from the ESP-IDF oneshot driver contract:
`adc_oneshot_config_channel` validates the channel id against the unit's
channel count and returns `ESP_ERR_INVALID_ARG` for an out-of-range
channel before touching the hardware; otherwise the hardware outcome
applies. The repository's `AdcHal::configureChannel` (adc_hal.cpp line
137) forwards this result unchanged. -/
def adc_oneshot_config_channel (hw : Hw) (channel : Nat) : EspErr :=
  if channel < SOC_ADC_CHANNEL_NUM then hw.config_channel_hw channel
  else .ESP_ERR_INVALID_ARG

/-- The linear voltage estimate `(raw_value * config_.default_vref) / 4095`
(adc_hal.cpp lines 186, 190, 257, 260, 301, 362). In C++ `raw_value` is
`int` and `default_vref` is `uint32_t`, so both convert to 32-bit
unsigned: the product wraps modulo `2 ^ 32` and the division is unsigned. -/
def linearEstimate (raw : Int) (vref : Nat) : Int :=
  ((raw * (vref : Int)) % (2 ^ 32)) / 4095

/-- The raw-to-voltage conversion block of `AdcHal::read` (adc_hal.cpp
lines 177-191), shared verbatim by `AdcHal::readAverage` (lines 249-261):
with a calibration handle present, `adc_cali_raw_to_voltage` is tried and
on failure the linear estimate is used; without a handle the linear
estimate is used. Returns the voltage and the `calibrated` flag. -/
def readConvert (s : AdcState) (channel : Nat) (raw : Int) : Int × Bool :=
  match s.calibration_handles.lookup channel with
  | some cal =>
    match cal raw with
    | some v => (v, true)
    | none => (linearEstimate raw s.config.default_vref, false)
  | none => (linearEstimate raw s.config.default_vref, false)

/-- `AdcHal::read` (adc_hal.cpp lines 162-198). -/
def read (hw : Hw) (s : AdcState) (channel : Nat) : Except EspErr ReadResult :=
  if s.state.isRunning = false then .error .ESP_ERR_INVALID_STATE
  else
    match hw.oneshot_read channel 0 with
    | .error e => .error e
    | .ok raw =>
      let vc := readConvert s channel (raw : Int)
      .ok { raw_value := (raw : Int), voltage_mv := vc.1, calibrated := vc.2 }

/-- The sampling loop of `AdcHal::readAverage` (adc_hal.cpp lines
233-244): reads one sample per iteration, aborting at the first failure.
Also returns how many `adc_oneshot_read` calls were performed. -/
def sampleLoop (hw : Hw) (channel : Nat) : Nat → Nat → Except EspErr (List Nat) × Nat
  | _, 0 => (.ok [], 0)
  | i, k + 1 =>
    match hw.oneshot_read channel i with
    | .error e => (.error e, 1)
    | .ok raw =>
      let rn := sampleLoop hw channel (i + 1) k
      match rn.1 with
      | .error e => (.error e, rn.2 + 1)
      | .ok rest => (.ok (raw :: rest), rn.2 + 1)

/-- `AdcHal::readAverage` (adc_hal.cpp lines 218-267). The second
component counts the `adc_oneshot_read` calls performed. The mean
`std::accumulate(...) / samples` divides the sample sum by the count
(non-negative codes, so plain `Nat` division). -/
def readAverage (hw : Hw) (s : AdcState) (channel : Nat) (samples : Nat) :
    Except EspErr ReadResult × Nat :=
  if s.state.isRunning = false then (.error .ESP_ERR_INVALID_STATE, 0)
  else if samples = 0 then (.error .ESP_ERR_INVALID_ARG, 0)
  else
    match sampleLoop hw channel 0 samples with
    | (.error e, n) => (.error e, n)
    | (.ok raws, n) =>
      let raw := raws.sum / samples
      let vc := readConvert s channel (raw : Int)
      (.ok { raw_value := (raw : Int), voltage_mv := vc.1, calibrated := vc.2 }, n)

/-- The re-conversion block of `AdcHal::readFiltered` (adc_hal.cpp lines
296-302): with a calibration handle present, `adc_cali_raw_to_voltage`
is called and its result is NOT checked — on failure the output variable
keeps its previous value `fallback` (the voltage computed for the raw,
unfiltered sample); without a handle the linear estimate is used. -/
def refilterConvert (s : AdcState) (channel : Nat) (code : Int) (fallback : Int) : Int :=
  match s.calibration_handles.lookup channel with
  | some cal =>
    match cal code with
    | some v => v
    | none => fallback
  | none => linearEstimate code s.config.default_vref

/-- `AdcHal::readFiltered` (adc_hal.cpp lines 269-309). Returns the
result together with the updated instance state (the filter bank is the
only member it mutates). -/
def readFiltered (hw : Hw) (s : AdcState) (channel : Nat) (alpha : ℚ) :
    Except EspErr (ReadResult × AdcState) :=
  if s.state.isRunning = false then .error .ESP_ERR_INVALID_STATE
  else if alpha < 0 ∨ 1 < alpha then .error .ESP_ERR_INVALID_ARG
  else
    match read hw s channel with
    | .error e => .error e
    | .ok r =>
      match s.filter_values.lookup channel with
      | some prev =>
        let filtered : ℚ := alpha * (r.raw_value : ℚ) + (1 - alpha) * prev
        let code := cppTrunc filtered
        .ok ({ raw_value := code,
               voltage_mv := refilterConvert s channel code r.voltage_mv,
               calibrated := r.calibrated },
             { s with filter_values := mapInsert s.filter_values channel filtered })
      | none =>
        .ok (r, { s with filter_values := mapInsert s.filter_values channel ((r.raw_value : ℚ)) })

/-- `AdcHal::destroyCalibrationHandle` (adc_hal.cpp lines 400-406). -/
def destroyCalibrationHandle (s : AdcState) (channel : Nat) : AdcState :=
  { s with calibration_handles := mapErase s.calibration_handles channel }

/-- `AdcHal::createCalibrationHandle` (adc_hal.cpp lines 376-398):
deletes any existing handle, then creates a curve-fitting scheme; only a
successfully created (hence non-null) handle is stored. -/
def createCalibrationHandle (hw : Hw) (s : AdcState) (channel : Nat) (atten : Attenuation) :
    EspErr × AdcState :=
  let s0 := destroyCalibrationHandle s channel
  match hw.cali_create channel atten with
  | .error e => (e, s0)
  | .ok h => (.ESP_OK, { s0 with calibration_handles := mapInsert s0.calibration_handles channel h })

/-- `AdcHal::configureChannel` (adc_hal.cpp lines 124-160): requires
`isInitialized`, applies the channel configuration through the driver,
stores it on success, then — if requested — creates the calibration
context, whose failure is non-fatal (logged only, `ESP_OK` returned). -/
def configureChannel (hw : Hw) (s : AdcState) (channel_config : ChannelConfig) :
    EspErr × AdcState :=
  if s.state.isInitialized = false then (.ESP_ERR_INVALID_STATE, s)
  else
    match adc_oneshot_config_channel hw channel_config.channel with
    | .ESP_OK =>
      let s1 := { s with channels := mapInsert s.channels channel_config.channel channel_config }
      if channel_config.calibration_enable then
        (.ESP_OK, (createCalibrationHandle hw s1 channel_config.channel channel_config.attenuation).2)
      else (.ESP_OK, s1)
    | e => (e, s)

/-- `AdcHal::start` (adc_hal.cpp lines 89-97). -/
def start (s : AdcState) : EspErr × AdcState :=
  if s.state.isInitialized = false then (.ESP_ERR_INVALID_STATE, s)
  else (.ESP_OK, { s with state := .RUNNING })

/-- `AdcHal::stop` (adc_hal.cpp lines 99-103): no state guard at all —
it sets `SUSPENDED` and reports success from every state. -/
def stop (s : AdcState) : EspErr × AdcState :=
  (.ESP_OK, { s with state := .SUSPENDED })

/-- `AdcHal::reset` (adc_hal.cpp lines 105-112): no state guard; clears
the filter bank and sets `INITIALIZED`. -/
def reset (s : AdcState) : EspErr × AdcState :=
  (.ESP_OK, { s with filter_values := [], state := .INITIALIZED })

end AdcHal

/-- `I2C_MASTER_WRITE` of the ESP-IDF i2c driver. -/
def I2C_MASTER_WRITE : Nat := 0

/-- `I2C_MASTER_READ` of the ESP-IDF i2c driver. -/
def I2C_MASTER_READ : Nat := 1

/-- One primitive command of an I2C command link, as queued by the
`i2c_master_*` framing calls of the ESP-IDF driver. -/
inductive I2cOp where
  | start
  | writeByte (b : Nat) (ack_check : Bool)
  | writeBytes (bs : List Nat) (ack_check : Bool)
  | readBytes (n : Nat)
  | readByteNack
  | stop
  deriving DecidableEq

namespace I2cHal

/-- The mutable members of one `I2cHal` instance relevant to its
operations: lifecycle state from `HalBase` and `driver_installed_`. -/
structure I2cState where
  state : HalBase.State
  driver_installed : Bool
  deriving DecidableEq

/-- Oracle for `i2c_master_cmd_begin`: one atomic, mutex-protected
execution of a whole command link against the bus, yielding the bytes the
link's read operations deposit (in order, one per requested byte), or the
error the execution fails with. -/
abbrev Bus : Type := List I2cOp → Except EspErr (List Nat)

/-- The command link `I2cHal::write` builds (i2c_hal.cpp lines 176-179):
START, address+WRITE (ACK-checked), all payload bytes, STOP. -/
def writeCmds (device_address : Nat) (data : List Nat) : List I2cOp :=
  [.start, .writeByte (((device_address <<< 1) ||| I2C_MASTER_WRITE) % 256) true,
   .writeBytes data true, .stop]

/-- `I2cHal::write` (i2c_hal.cpp lines 155-199). The second component
lists the command links actually executed on the bus. -/
def write (bus : Bus) (s : I2cState) (device_address : Nat) (data : List Nat) :
    EspErr × List (List I2cOp) :=
  if s.state.isRunning = false then (.ESP_ERR_INVALID_STATE, [])
  else if data = [] then (.ESP_ERR_INVALID_ARG, [])
  else
    match bus (writeCmds device_address data) with
    | .ok _ => (.ESP_OK, [writeCmds device_address data])
    | .error e => (e, [writeCmds device_address data])

/-- The command link `I2cHal::read` builds (i2c_hal.cpp lines 225-232):
START, address+READ, `length-1` bytes ACKed (when `length > 1`), final
byte NACKed, STOP. -/
def readCmds (device_address : Nat) (length : Nat) : List I2cOp :=
  [.start, .writeByte (((device_address <<< 1) ||| I2C_MASTER_READ) % 256) true]
  ++ (if length > 1 then [.readBytes (length - 1)] else [])
  ++ [.readByteNack, .stop]

/-- `I2cHal::read` (i2c_hal.cpp lines 201-253). `data` is the caller's
output vector; the returned triple is (status, final content of the
output vector, command links executed). On execution failure the vector
is cleared (line 247). -/
def read (bus : Bus) (s : I2cState) (device_address : Nat) (length : Nat)
    (data : List Nat) : EspErr × List Nat × List (List I2cOp) :=
  if s.state.isRunning = false then (.ESP_ERR_INVALID_STATE, data, [])
  else if length = 0 then (.ESP_ERR_INVALID_ARG, data, [])
  else
    match bus (readCmds device_address length) with
    | .ok bytes => (.ESP_OK, bytes, [readCmds device_address length])
    | .error e => (e, [], [readCmds device_address length])

/-- The command link `I2cHal::writeRegister` builds (i2c_hal.cpp lines
272-280): START, address+WRITE, register byte, payload (when non-empty),
STOP. -/
def writeRegisterCmds (device_address register_address : Nat) (data : List Nat) : List I2cOp :=
  [.start, .writeByte (((device_address <<< 1) ||| I2C_MASTER_WRITE) % 256) true,
   .writeByte (register_address % 256) true]
  ++ (if data = [] then [] else [.writeBytes data true])
  ++ [.stop]

/-- `I2cHal::writeRegister` (i2c_hal.cpp lines 255-301). -/
def writeRegister (bus : Bus) (s : I2cState) (device_address register_address : Nat)
    (data : List Nat) : EspErr × List (List I2cOp) :=
  if s.state.isRunning = false then (.ESP_ERR_INVALID_STATE, [])
  else
    match bus (writeRegisterCmds device_address register_address data) with
    | .ok _ => (.ESP_OK, [writeRegisterCmds device_address register_address data])
    | .error e => (e, [writeRegisterCmds device_address register_address data])

/-- The command link `I2cHal::readRegister` builds (i2c_hal.cpp lines
328-339): START, address+WRITE, register byte, repeated START,
address+READ, `length-1` bytes ACKed (when `length > 1`), final byte
NACKed, STOP — one link, with no STOP between the write and read phases. -/
def readRegisterCmds (device_address register_address : Nat) (length : Nat) : List I2cOp :=
  [.start, .writeByte (((device_address <<< 1) ||| I2C_MASTER_WRITE) % 256) true,
   .writeByte (register_address % 256) true,
   .start, .writeByte (((device_address <<< 1) ||| I2C_MASTER_READ) % 256) true]
  ++ (if length > 1 then [.readBytes (length - 1)] else [])
  ++ [.readByteNack, .stop]

/-- `I2cHal::readRegister` (i2c_hal.cpp lines 303-361). `data` is the
caller's output vector; on execution failure it is cleared (line 354). -/
def readRegister (bus : Bus) (s : I2cState) (device_address register_address : Nat)
    (length : Nat) (data : List Nat) : EspErr × List Nat × List (List I2cOp) :=
  if s.state.isRunning = false then (.ESP_ERR_INVALID_STATE, data, [])
  else if length = 0 then (.ESP_ERR_INVALID_ARG, data, [])
  else
    match bus (readRegisterCmds device_address register_address length) with
    | .ok bytes => (.ESP_OK, bytes, [readRegisterCmds device_address register_address length])
    | .error e => (e, [], [readRegisterCmds device_address register_address length])

/-- The probe link `I2cHal::deviceExists` builds (i2c_hal.cpp lines
420-422): START, address+WRITE, STOP, no payload. -/
def probeCmds (device_address : Nat) : List I2cOp :=
  [.start, .writeByte (((device_address <<< 1) ||| I2C_MASTER_WRITE) % 256) true, .stop]

/-- `I2cHal::deviceExists` (i2c_hal.cpp lines 406-438): false when not
running, else true exactly when the probe transaction succeeds. -/
def deviceExists (bus : Bus) (s : I2cState) (device_address : Nat) : Bool :=
  if s.state.isRunning = false then false
  else
    match bus (probeCmds device_address) with
    | .ok _ => true
    | .error _ => false

/-- `I2cHal::scanBus` (i2c_hal.cpp lines 440-461): probes addresses
0x08..0x77 in ascending order, collecting those that acknowledge. -/
def scanBus (bus : Bus) (s : I2cState) : Except EspErr (List Nat) :=
  if s.state.isRunning = false then .error .ESP_ERR_INVALID_STATE
  else .ok ((List.range' 0x08 0x70).filter (fun addr => deviceExists bus s addr))

/-- `I2cHal::stop` (i2c_hal.cpp lines 128-132): no state guard at all —
it sets `SUSPENDED` and reports success from every state. -/
def stop (s : I2cState) : EspErr × I2cState :=
  (.ESP_OK, { s with state := .SUSPENDED })

/-- `I2cHal::reset` (i2c_hal.cpp lines 134-143): no state guard; deletes
the installed driver and sets `INITIALIZED`. -/
def reset (s : I2cState) : EspErr × I2cState :=
  (.ESP_OK, { s with state := .INITIALIZED, driver_installed := false })

end I2cHal

namespace GpioHal

/-- `GpioHal::Direction` (gpio_hal.hpp lines 34-38). -/
inductive Direction where
  | INPUT
  | OUTPUT
  | INPUT_OUTPUT
  deriving DecidableEq

/-- `GpioHal::Pull` (gpio_hal.hpp lines 43-48). -/
inductive Pull where
  | NONE
  | PULLUP
  | PULLDOWN
  | PULLUP_PULLDOWN
  deriving DecidableEq

/-- `GpioHal::InterruptType` (gpio_hal.hpp lines 53-60). -/
inductive InterruptType where
  | DISABLE
  | POSEDGE
  | NEGEDGE
  | ANYEDGE
  | LOW_LEVEL
  | HIGH_LEVEL
  deriving DecidableEq

/-- `GpioHal::Config` (gpio_hal.hpp lines 65-71). -/
structure Config where
  pin : Nat
  direction : Direction
  pull : Pull
  interrupt : InterruptType
  invert : Bool
  deriving DecidableEq

/-- The members of one `GpioHal` instance relevant to interrupt binding:
lifecycle state, `pin_configs_`, `callbacks_` (callback values are opaque,
type `κ`), the set of pins the process-wide static `pin_map_` currently
maps to this instance, and the process-wide static
`isr_service_installed_` flag. -/
structure GpioState (κ : Type) where
  state : HalBase.State
  pin_configs : List (Nat × Config)
  callbacks : List (Nat × κ)
  pin_map : List Nat
  isr_service_installed : Bool

/-- Oracle for the external ESP-IDF GPIO driver calls made by
`GpioHal::setInterrupt` and `installIsrService`. -/
structure Hw where
  is_valid_gpio : Nat → Bool
  set_intr_type : Nat → InterruptType → EspErr
  isr_handler_add : Nat → EspErr
  install_isr_service : EspErr

/-- `GpioHal::installIsrService` (gpio_hal.cpp lines 324-336). -/
def installIsrService {κ : Type} (hw : Hw) (s : GpioState κ) : EspErr × GpioState κ :=
  if s.isr_service_installed then (.ESP_OK, s)
  else
    match hw.install_isr_service with
    | .ESP_OK => (.ESP_OK, { s with isr_service_installed := true })
    | e => (e, s)

/-- `GpioHal::setInterrupt` (gpio_hal.cpp lines 256-296). Note: it never
checks whether `pin` already has a callback registered — an existing
binding is silently overwritten. -/
def setInterrupt {κ : Type} (hw : Hw) (s : GpioState κ) (pin : Nat)
    (type : InterruptType) (callback : κ) : EspErr × GpioState κ :=
  if hw.is_valid_gpio pin = false then (.ESP_ERR_INVALID_ARG, s)
  else
    match installIsrService hw s with
    | (.ESP_OK, s0) =>
      match hw.set_intr_type pin type with
      | .ESP_OK =>
        let s1 := { s0 with callbacks := mapInsert s0.callbacks pin callback,
                            pin_map := pin :: s0.pin_map.filter (fun p => p ≠ pin) }
        match hw.isr_handler_add pin with
        | .ESP_OK =>
          let s2 :=
            match s1.pin_configs.lookup pin with
            | some cfg =>
              { s1 with pin_configs := mapInsert s1.pin_configs pin { cfg with interrupt := type } }
            | none => s1
          (.ESP_OK, s2)
        | e => (e, { s1 with callbacks := mapErase s1.callbacks pin })
      | e => (e, s0)
    | (e, s0) => (e, s0)

/-- `GpioHal::disableInterrupt` (gpio_hal.cpp lines 298-318): removes the
ISR handler and the callback, disables the interrupt (failures of the
driver calls are only logged) and marks the stored pin configuration
`DISABLE`; always returns `ESP_OK`. -/
def disableInterrupt {κ : Type} (s : GpioState κ) (pin : Nat) : EspErr × GpioState κ :=
  let s1 := { s with callbacks := mapErase s.callbacks pin }
  let s2 :=
    match s1.pin_configs.lookup pin with
    | some cfg =>
      { s1 with pin_configs := mapInsert s1.pin_configs pin { cfg with interrupt := .DISABLE } }
    | none => s1
  (.ESP_OK, s2)

end GpioHal

namespace InterruptHal

/-- `InterruptHal::TimerConfig` (interrupt_hal.hpp lines 61-66);
`priority` is kept as its numeric level. -/
structure TimerConfig where
  period_us : Nat
  auto_reload : Bool
  priority : Nat
  run_in_isr : Bool
  deriving DecidableEq

/-- `InterruptHal::SourceConfig` (interrupt_hal.hpp lines 71-75);
`priority` is kept as its numeric level. -/
structure SourceConfig where
  source : Int
  priority : Nat
  flags : Nat
  deriving DecidableEq

/-- `InterruptHal::Statistics` (interrupt_hal.hpp lines 90-95); all four
counters are `uint64_t`. -/
structure Statistics where
  total_count : Nat
  missed_count : Nat
  max_latency_us : Nat
  avg_latency_us : Nat
  deriving DecidableEq

/-- The `{}` zero value `Statistics` records are created and reset with. -/
def Statistics.empty : Statistics :=
  { total_count := 0, missed_count := 0, max_latency_us := 0, avg_latency_us := 0 }

/-- `InterruptHal::TimerInfo` (interrupt_hal.hpp lines 277-282) without
the opaque `esp_timer_handle_t`; the `std::function` callback is `none`
when empty (the trampoline checks `if (it->second.callback)`). -/
structure TimerInfo (κ : Type) where
  config : TimerConfig
  callback : Option κ
  stats : Statistics

/-- `InterruptHal::InterruptInfo` (interrupt_hal.hpp lines 287-292)
without the opaque `intr_handle_t`. -/
structure InterruptInfo (κ : Type) where
  config : SourceConfig
  handler : Option κ
  stats : Statistics

/-- The mutable members of one `InterruptHal` instance: lifecycle state,
`timers_` and `interrupts_`. -/
structure IState (κ : Type) where
  state : HalBase.State
  timers : List (Nat × TimerInfo κ)
  interrupts : List (Nat × InterruptInfo κ)

/-- Oracle for the external ESP-IDF calls made by `InterruptHal`:
`timer_create id` is the outcome of `esp_timer_create` for timer `id`,
`intr_alloc id` of `esp_intr_alloc` for interrupt `id`, `intr_free id`
of `esp_intr_free`. -/
structure Hw where
  timer_create : Nat → EspErr
  intr_alloc : Nat → EspErr
  intr_free : Nat → EspErr

/-- `InterruptHal::createHighResTimer` (interrupt_hal.cpp lines 94-132):
requires `RUNNING`; a timer id already present fails with
`ESP_ERR_INVALID_ARG` leaving the map unchanged. -/
def createHighResTimer {κ : Type} (hw : Hw) (s : IState κ) (timer_id : Nat)
    (config : TimerConfig) (callback : Option κ) : EspErr × IState κ :=
  if s.state.isRunning = false then (.ESP_ERR_INVALID_STATE, s)
  else
    match s.timers.lookup timer_id with
    | some _ => (.ESP_ERR_INVALID_ARG, s)
    | none =>
      match hw.timer_create timer_id with
      | .ESP_OK =>
        let info : TimerInfo κ := { config := config, callback := callback, stats := Statistics.empty }
        (.ESP_OK, { s with timers := mapInsert s.timers timer_id info })
      | e => (e, s)

/-- `InterruptHal::deleteTimer` (interrupt_hal.cpp lines 178-199):
an unknown id fails with `ESP_ERR_NOT_FOUND`; otherwise the timer is
stopped, deleted and erased (the model assumes `esp_timer_delete`
succeeds, as it does for a valid stopped handle). -/
def deleteTimer {κ : Type} (s : IState κ) (timer_id : Nat) : EspErr × IState κ :=
  match s.timers.lookup timer_id with
  | none => (.ESP_ERR_NOT_FOUND, s)
  | some _ => (.ESP_OK, { s with timers := mapErase s.timers timer_id })

/-- `InterruptHal::registerInterrupt` (interrupt_hal.cpp lines 233-268):
requires `RUNNING`; an interrupt id already present fails with
`ESP_ERR_INVALID_ARG` leaving the map unchanged. -/
def registerInterrupt {κ : Type} (hw : Hw) (s : IState κ) (interrupt_id : Nat)
    (config : SourceConfig) (handler : Option κ) : EspErr × IState κ :=
  if s.state.isRunning = false then (.ESP_ERR_INVALID_STATE, s)
  else
    match s.interrupts.lookup interrupt_id with
    | some _ => (.ESP_ERR_INVALID_ARG, s)
    | none =>
      match hw.intr_alloc interrupt_id with
      | .ESP_OK =>
        let info : InterruptInfo κ := { config := config, handler := handler, stats := Statistics.empty }
        (.ESP_OK, { s with interrupts := mapInsert s.interrupts interrupt_id info })
      | e => (e, s)

/-- `InterruptHal::unregisterInterrupt` (interrupt_hal.cpp lines
270-289): an unknown id fails with `ESP_ERR_NOT_FOUND`; a failing
`esp_intr_free` is returned with the binding left in place; on success
the binding is erased. -/
def unregisterInterrupt {κ : Type} (hw : Hw) (s : IState κ) (interrupt_id : Nat) :
    EspErr × IState κ :=
  match s.interrupts.lookup interrupt_id with
  | none => (.ESP_ERR_NOT_FOUND, s)
  | some _ =>
    match hw.intr_free interrupt_id with
    | .ESP_OK => (.ESP_OK, { s with interrupts := mapErase s.interrupts interrupt_id })
    | e => (e, s)

/-- The body of `InterruptHal::espTimerCallback` (interrupt_hal.cpp lines
432-452) as a function of the value of its function-local static
`instance` pointer: with a null pointer it returns immediately; with an
instance it looks the timer id up, increments `total_count` (a `uint64_t`)
and invokes the callback when one is set. Returns the instance state
after the dispatch and whether the client callback was invoked. -/
def espTimerCallbackOn {κ : Type} (inst : Option (IState κ)) (timer_id : Nat) :
    Option (IState κ) × Bool :=
  match inst with
  | none => (none, false)
  | some st =>
    match st.timers.lookup timer_id with
    | none => (some st, false)
    | some info =>
      let stats1 := { info.stats with total_count := (info.stats.total_count + 1) % 2 ^ 64 }
      (some { st with timers := mapInsert st.timers timer_id { info with stats := stats1 } },
       info.callback.isSome)

/-- The value of the function-local `static InterruptHal* instance =
nullptr;` inside `InterruptHal::espTimerCallback` (interrupt_hal.cpp line
437): it is initialized to null and, being function-local, could only be
assigned inside that function — which never assigns it. It is therefore
null on every dispatch. -/
def timerTrampolineStatic (κ : Type) : Option (IState κ) := none

/-- `InterruptHal::espTimerCallback` (interrupt_hal.cpp lines 432-452)
as executed: the dispatch the esp_timer service performs for `timer_id`,
reading the never-assigned static instance pointer. -/
def espTimerCallback (κ : Type) (timer_id : Nat) : Option (IState κ) × Bool :=
  espTimerCallbackOn (timerTrampolineStatic κ) timer_id

/-- The body of `InterruptHal::interruptHandlerWrapper` (interrupt_hal.cpp
lines 454-474) as a function of its own function-local static `instance`
pointer; same shape as the timer trampoline, over `interrupts_`. -/
def interruptHandlerWrapperOn {κ : Type} (inst : Option (IState κ)) (interrupt_id : Nat) :
    Option (IState κ) × Bool :=
  match inst with
  | none => (none, false)
  | some st =>
    match st.interrupts.lookup interrupt_id with
    | none => (some st, false)
    | some info =>
      let stats1 := { info.stats with total_count := (info.stats.total_count + 1) % 2 ^ 64 }
      (some { st with interrupts := mapInsert st.interrupts interrupt_id { info with stats := stats1 } },
       info.handler.isSome)

/-- The value of the function-local `static InterruptHal* instance =
nullptr;` inside `InterruptHal::interruptHandlerWrapper` (interrupt_hal.cpp
line 459): initialized to null and never assigned, so null on every
dispatch. -/
def interruptTrampolineStatic (κ : Type) : Option (IState κ) := none

/-- `InterruptHal::interruptHandlerWrapper` (interrupt_hal.cpp lines
454-474) as executed, reading the never-assigned static instance
pointer. -/
def interruptHandlerWrapper (κ : Type) (interrupt_id : Nat) : Option (IState κ) × Bool :=
  interruptHandlerWrapperOn (interruptTrampolineStatic κ) interrupt_id

/-- `InterruptHal::stop` (interrupt_hal.cpp lines 68-77): no state guard
at all — it stops the timers and sets `SUSPENDED` from every state. -/
def stop {κ : Type} (s : IState κ) : EspErr × IState κ :=
  (.ESP_OK, { s with state := .SUSPENDED })

end InterruptHal

/-! Concrete fixtures used to instantiate the theorems below. -/

/-- An ADC oracle: every sample is the mid-scale code 2048, channel
configuration succeeds, calibration-scheme creation fails. -/
def adcHwFx : AdcHal.Hw :=
  { oneshot_read := fun _ _ => .ok 2048,
    config_channel_hw := fun _ => .ESP_OK,
    cali_create := fun _ _ => .error .ESP_FAIL }

/-- A running ADC instance with the default 1100 mV reference and no
calibration contexts. -/
def adcRunningFx : AdcHal.AdcState :=
  { state := .RUNNING,
    config := { unit := .UNIT_1, bit_width := .WIDTH_DEFAULT, default_vref := 1100 },
    channels := [], calibration_handles := [], filter_values := [] }

/-- An initialized (not yet started) ADC instance. -/
def adcInitFx : AdcHal.AdcState :=
  { adcRunningFx with state := .INITIALIZED }

/-- An ADC instance in the `ERROR` lifecycle state. -/
def adcErrorFx : AdcHal.AdcState :=
  { adcRunningFx with state := .ERROR }

/-- A calibration handle that converts the raw code 100 to 120 mV and
fails on every other code. -/
def calFx : AdcHal.CalHandle :=
  fun code => if code = 100 then some 120 else none

/-- A running ADC instance whose channel 3 has the calibration context
`calFx` and an existing filter value 50. -/
def adcCalFx : AdcHal.AdcState :=
  { adcRunningFx with calibration_handles := [(3, calFx)], filter_values := [(3, 50)] }

/-- An ADC oracle whose every sample is the raw code 100. -/
def adcHw100Fx : AdcHal.Hw :=
  { adcHwFx with oneshot_read := fun _ _ => .ok 100 }

/-- A running I2C instance. -/
def i2cRunningFx : I2cHal.I2cState :=
  { state := .RUNNING, driver_installed := true }

/-- An I2C instance in the `ERROR` lifecycle state. -/
def i2cErrorFx : I2cHal.I2cState :=
  { state := .ERROR, driver_installed := true }

/-- A bus on which every transaction times out. -/
def failBusFx : I2cHal.Bus :=
  fun _ => .error .ESP_ERR_TIMEOUT

/-- A bus that acknowledges exactly the presence probes of addresses
0x23 and 0x68 and fails every other transaction. -/
def mockBusFx : I2cHal.Bus :=
  fun cmds =>
    if cmds = I2cHal.probeCmds 0x23 ∨ cmds = I2cHal.probeCmds 0x68 then .ok []
    else .error .ESP_FAIL

/-- A GPIO oracle on which every pin is valid and every driver call
succeeds. -/
def gpioHwFx : GpioHal.Hw :=
  { is_valid_gpio := fun _ => true,
    set_intr_type := fun _ _ => .ESP_OK,
    isr_handler_add := fun _ => .ESP_OK,
    install_isr_service := .ESP_OK }

/-- A running GPIO instance whose pin 4 is already bound to callback 1
(callbacks are opaque tokens, here `Nat`). -/
def gpioBoundFx : GpioHal.GpioState Nat :=
  { state := .RUNNING, pin_configs := [], callbacks := [(4, 1)], pin_map := [4],
    isr_service_installed := true }

/-- An interrupt-manager oracle on which every driver call succeeds. -/
def intrHwFx : InterruptHal.Hw :=
  { timer_create := fun _ => .ESP_OK,
    intr_alloc := fun _ => .ESP_OK,
    intr_free := fun _ => .ESP_OK }

/-- A registered interrupt binding (source 5, handler token 9). -/
def intrInfoFx : InterruptHal.InterruptInfo Nat :=
  { config := { source := 5, priority := 1, flags := 0 },
    handler := some 9, stats := InterruptHal.Statistics.empty }

/-- A registered timer binding (period 1000 us, callback token 9). -/
def timerInfoFx : InterruptHal.TimerInfo Nat :=
  { config := { period_us := 1000, auto_reload := true, priority := 1, run_in_isr := false },
    callback := some 9, stats := InterruptHal.Statistics.empty }

/-- A running interrupt manager with timer id 2 and interrupt id 7
registered. -/
def intrStateFx : InterruptHal.IState Nat :=
  { state := .RUNNING, timers := [(2, timerInfoFx)], interrupts := [(7, intrInfoFx)] }

/-! Helper lemmas about the association-list map operations. -/

/-- Looking up the freshly written key finds the new value. -/
theorem lookup_mapInsert {α : Type} (m : List (Nat × α)) (k : Nat) (v : α) :
    (mapInsert m k v).lookup k = some v := by
  simp [mapInsert, List.lookup]

/-- Looking up an erased key finds nothing. -/
theorem lookup_mapErase {α : Type} (m : List (Nat × α)) (k : Nat) :
    (mapErase m k).lookup k = none := by
  induction m with
  | nil => rfl
  | cons p t ih =>
    rcases p with ⟨a, b⟩
    by_cases h : a = k
    · subst h
      simpa [mapErase, List.filter_cons] using ih
    · have hk : (k == a) = false := by simp [Ne.symm h]
      simpa [mapErase, List.filter_cons, h, List.lookup, hk] using ih

/-- C1: with no calibration context on the channel, a successful
`AdcHal::read` reports `calibrated = false` and the linear estimate
`raw * default_vref / 4095`; the estimate agrees with plain integer
arithmetic whenever the 32-bit product does not wrap (it never does for
12-bit codes and the default 1100 mV reference). -/
theorem adc_read_uncalibrated_linear_C1 (hw : AdcHal.Hw) (s : AdcHal.AdcState)
    (channel raw : Nat)
    (hrun : s.state.isRunning = true)
    (hcal : s.calibration_handles.lookup channel = none)
    (hhw : hw.oneshot_read channel 0 = .ok raw) :
    AdcHal.read hw s channel =
      .ok { raw_value := (raw : Int),
            voltage_mv := AdcHal.linearEstimate (raw : Int) s.config.default_vref,
            calibrated := false } ∧
    (raw * s.config.default_vref < 2 ^ 32 →
      AdcHal.linearEstimate (raw : Int) s.config.default_vref =
        ((raw : Int) * (s.config.default_vref : Int)) / 4095) := by
  constructor
  · simp [AdcHal.read, AdcHal.readConvert, hrun, hcal, hhw]
  · intro hlt
    unfold AdcHal.linearEstimate
    rw [Int.emod_eq_of_lt (by positivity) (by exact_mod_cast hlt)]

/-- C1 witness: raw 2048 at the default 1100 mV reference reads back as
550 mV, uncalibrated. -/
theorem adc_read_uncalibrated_linear_C1_witness :
    AdcHal.read adcHwFx adcRunningFx 3 =
      .ok { raw_value := 2048, voltage_mv := 550, calibrated := false } ∧
    (550 : Int) = (2048 * 1100) / 4095 := by
  have h := adc_read_uncalibrated_linear_C1 adcHwFx adcRunningFx 3 2048 rfl rfl rfl
  refine ⟨?_, by decide⟩
  have h2 : AdcHal.linearEstimate ((2048 : Nat) : Int) adcRunningFx.config.default_vref = 550 := by
    decide
  rw [← h2]
  exact h.1

/-- C7: `AdcHal::configureChannel` on an initialized unit rejects a
channel id outside the unit's supported range (0..9 on the ESP32-S3) with
`ESP_ERR_INVALID_ARG`, via the forwarded driver validation, and leaves
the instance — in particular its stored channel map — unchanged. -/
theorem adc_configureChannel_invalid_channel_C7 (hw : AdcHal.Hw) (s : AdcHal.AdcState)
    (cc : AdcHal.ChannelConfig)
    (hinit : s.state.isInitialized = true)
    (hch : AdcHal.SOC_ADC_CHANNEL_NUM ≤ cc.channel) :
    AdcHal.configureChannel hw s cc = (.ESP_ERR_INVALID_ARG, s) := by
  have hch' : ¬ cc.channel < AdcHal.SOC_ADC_CHANNEL_NUM := Nat.not_lt_of_ge hch
  simp [AdcHal.configureChannel, AdcHal.adc_oneshot_config_channel, hinit, hch']

/-- C7 witness: channel 10 is rejected on an initialized unit and the
channel map stays empty. -/
theorem adc_configureChannel_invalid_channel_C7_witness :
    AdcHal.configureChannel adcHwFx adcInitFx
        { channel := 10, attenuation := .DB_11, calibration_enable := false } =
      (.ESP_ERR_INVALID_ARG, adcInitFx) := by
  exact adc_configureChannel_invalid_channel_C7 adcHwFx adcInitFx
    { channel := 10, attenuation := .DB_11, calibration_enable := false } rfl (by decide)

/-- C10: `AdcHal::readAverage` with `samples = 0` performs no hardware
read at all (the second component counts `adc_oneshot_read` calls), and
— on a running unit, where the zero-sample guard is reached — fails with
`ESP_ERR_INVALID_ARG`, so the mean's division by the sample count never
divides by zero. -/
theorem adc_readAverage_zero_samples_C10 (hw : AdcHal.Hw) (s : AdcHal.AdcState)
    (channel : Nat) :
    (AdcHal.readAverage hw s channel 0).2 = 0 ∧
    (s.state.isRunning = true →
      (AdcHal.readAverage hw s channel 0).1 = .error .ESP_ERR_INVALID_ARG) := by
  constructor
  · unfold AdcHal.readAverage
    by_cases h : s.state.isRunning = false <;> simp [h]
  · intro hrun
    simp [AdcHal.readAverage, hrun]

/-- C10 witness: on the running fixture, zero samples yield
`ESP_ERR_INVALID_ARG` and zero hardware reads. -/
theorem adc_readAverage_zero_samples_C10_witness :
    (AdcHal.readAverage adcHwFx adcRunningFx 3 0).2 = 0 ∧
    (AdcHal.readAverage adcHwFx adcRunningFx 3 0).1 = .error .ESP_ERR_INVALID_ARG := by
  have h := adc_readAverage_zero_samples_C10 adcHwFx adcRunningFx 3
  exact ⟨h.1, h.2 rfl⟩

/-- C3 counterexample: on an instance in the `ERROR` state, `stop()` —
a public operation other than destruction — does not fail with
`ESP_ERR_INVALID_STATE`: it reports `ESP_OK` and moves the lifecycle
state to `SUSPENDED` (adc_hal.cpp lines 99-103 have no state guard). -/
theorem lifecycle_error_stop_C3_counterexample :
    adcErrorFx.state = .ERROR ∧
    (AdcHal.stop adcErrorFx).1 = .ESP_OK ∧
    (AdcHal.stop adcErrorFx).2.state = .SUSPENDED := by
  exact ⟨rfl, rfl, rfl⟩

/-- C3 (amended): operations that check a required lifecycle state —
`read`, `readAverage`, `readFiltered`, `configureChannel`, `start`, and
the I2C transaction calls — fail with `ESP_ERR_INVALID_STATE` outside it
(in particular in `ERROR`, where `isRunning` and `isInitialized` are
false) and do not mutate the instance state; `stop()` and `reset()`,
however, have no state guard: from every state, `ERROR` included,
`stop` succeeds and sets `SUSPENDED`, and `reset` succeeds and sets
`INITIALIZED`. -/
theorem lifecycle_guards_C3 :
    (∀ (hw : AdcHal.Hw) (s : AdcHal.AdcState) (channel : Nat),
       s.state.isRunning = false → AdcHal.read hw s channel = .error .ESP_ERR_INVALID_STATE) ∧
    (∀ (hw : AdcHal.Hw) (s : AdcHal.AdcState) (channel samples : Nat),
       s.state.isRunning = false →
       AdcHal.readAverage hw s channel samples = (.error .ESP_ERR_INVALID_STATE, 0)) ∧
    (∀ (hw : AdcHal.Hw) (s : AdcHal.AdcState) (channel : Nat) (alpha : ℚ),
       s.state.isRunning = false →
       AdcHal.readFiltered hw s channel alpha = .error .ESP_ERR_INVALID_STATE) ∧
    (∀ (hw : AdcHal.Hw) (s : AdcHal.AdcState) (cc : AdcHal.ChannelConfig),
       s.state.isInitialized = false →
       AdcHal.configureChannel hw s cc = (.ESP_ERR_INVALID_STATE, s)) ∧
    (∀ (s : AdcHal.AdcState), s.state.isInitialized = false →
       AdcHal.start s = (.ESP_ERR_INVALID_STATE, s)) ∧
    (∀ (bus : I2cHal.Bus) (s : I2cHal.I2cState) (addr : Nat) (data : List Nat),
       s.state.isRunning = false →
       I2cHal.write bus s addr data = (.ESP_ERR_INVALID_STATE, [])) ∧
    (∀ (bus : I2cHal.Bus) (s : I2cHal.I2cState) (addr len : Nat) (data : List Nat),
       s.state.isRunning = false →
       I2cHal.read bus s addr len data = (.ESP_ERR_INVALID_STATE, data, [])) ∧
    (∀ (bus : I2cHal.Bus) (s : I2cHal.I2cState) (addr reg len : Nat) (data : List Nat),
       s.state.isRunning = false →
       I2cHal.readRegister bus s addr reg len data = (.ESP_ERR_INVALID_STATE, data, [])) ∧
    (∀ (s : AdcHal.AdcState), s.state = .ERROR →
       (AdcHal.stop s).1 = .ESP_OK ∧ (AdcHal.stop s).2.state = .SUSPENDED ∧
       (AdcHal.reset s).1 = .ESP_OK ∧ (AdcHal.reset s).2.state = .INITIALIZED) ∧
    (∀ (s : I2cHal.I2cState), s.state = .ERROR →
       (I2cHal.stop s).1 = .ESP_OK ∧ (I2cHal.stop s).2.state = .SUSPENDED) := by
  refine ⟨?_, ?_, ?_, ?_, ?_, ?_, ?_, ?_, ?_, ?_⟩
  · intro hw s channel h
    simp [AdcHal.read, h]
  · intro hw s channel samples h
    simp [AdcHal.readAverage, h]
  · intro hw s channel alpha h
    simp [AdcHal.readFiltered, h]
  · intro hw s cc h
    simp [AdcHal.configureChannel, h]
  · intro s h
    simp [AdcHal.start, h]
  · intro bus s addr data h
    simp [I2cHal.write, h]
  · intro bus s addr len data h
    simp [I2cHal.read, h]
  · intro bus s addr reg len data h
    simp [I2cHal.readRegister, h]
  · intro s _
    exact ⟨rfl, rfl, rfl, rfl⟩
  · intro s _
    exact ⟨rfl, rfl⟩

/-- C3 witness: concrete `ERROR`-state instances — guarded operations
fail with `ESP_ERR_INVALID_STATE` without mutating the state, while
`stop()` succeeds. -/
theorem lifecycle_guards_C3_witness :
    AdcHal.read adcHwFx adcErrorFx 3 = .error .ESP_ERR_INVALID_STATE ∧
    AdcHal.configureChannel adcHwFx adcErrorFx
        { channel := 3, attenuation := .DB_11, calibration_enable := false } =
      (.ESP_ERR_INVALID_STATE, adcErrorFx) ∧
    I2cHal.readRegister failBusFx i2cErrorFx 0x68 0x75 6 [] =
      (.ESP_ERR_INVALID_STATE, [], []) ∧
    (AdcHal.stop adcErrorFx).1 = .ESP_OK := by
  obtain ⟨h1, h2, h3, h4, h5, h6, h7, h8, h9, h10⟩ := lifecycle_guards_C3
  exact ⟨h1 adcHwFx adcErrorFx 3 rfl,
         h4 adcHwFx adcErrorFx _ rfl,
         h8 failBusFx i2cErrorFx 0x68 0x75 6 [] rfl,
         (h9 adcErrorFx rfl).1⟩

/-- C6: the dispatch trampolines are dead code — the function-local
static instance pointer each of them reads is initialized to null and
never assigned, so every dispatch returns immediately: no `Statistics`
record is incremented and no registered callback is invoked. The last
two conjuncts document that the increment-and-invoke logic does exist
behind the null check: had the pointer held an instance, a dispatch of
registered timer id 2 would set `total_count` to 1 and invoke the
callback. -/
theorem interrupt_dispatch_dead_C6 :
    (∀ timer_id : Nat, InterruptHal.espTimerCallback Nat timer_id = (none, false)) ∧
    (∀ interrupt_id : Nat, InterruptHal.interruptHandlerWrapper Nat interrupt_id = (none, false)) ∧
    (InterruptHal.espTimerCallbackOn (some intrStateFx) 2).2 = true ∧
    ((InterruptHal.espTimerCallbackOn (some intrStateFx) 2).1.map
        (fun st => (st.timers.lookup 2).map (fun info => info.stats.total_count))) =
      some (some 1) := by
  exact ⟨fun _ => rfl, fun _ => rfl, rfl, rfl⟩

/-- C5: `I2cHal::readRegister` with `length = 0` fails with
`ESP_ERR_INVALID_ARG` before any bus activity; with `length ≥ 1` it
executes exactly one command link — START, address+WRITE, register byte,
repeated START, address+READ, `length-1` bytes ACKed, final byte NACKed,
STOP — whose only STOP is its final element, so no STOP separates the
write and read phases. -/
theorem i2c_readRegister_framing_C5 (bus : I2cHal.Bus) (s : I2cHal.I2cState)
    (addr reg len : Nat) (data : List Nat)
    (hrun : s.state.isRunning = true) :
    I2cHal.readRegister bus s addr reg 0 data = (.ESP_ERR_INVALID_ARG, data, []) ∧
    (1 ≤ len →
      (I2cHal.readRegister bus s addr reg len data).2.2 =
        [I2cHal.readRegisterCmds addr reg len] ∧
      (1 < len → I2cHal.readRegisterCmds addr reg len =
        [.start, .writeByte (((addr <<< 1) ||| I2C_MASTER_WRITE) % 256) true,
         .writeByte (reg % 256) true,
         .start, .writeByte (((addr <<< 1) ||| I2C_MASTER_READ) % 256) true,
         .readBytes (len - 1), .readByteNack, .stop]) ∧
      (len = 1 → I2cHal.readRegisterCmds addr reg len =
        [.start, .writeByte (((addr <<< 1) ||| I2C_MASTER_WRITE) % 256) true,
         .writeByte (reg % 256) true,
         .start, .writeByte (((addr <<< 1) ||| I2C_MASTER_READ) % 256) true,
         .readByteNack, .stop]) ∧
      (I2cHal.readRegisterCmds addr reg len).count .stop = 1 ∧
      (I2cHal.readRegisterCmds addr reg len).getLast? = some .stop) := by
  refine ⟨by simp [I2cHal.readRegister, hrun], ?_⟩
  intro hlen
  have h0 : ¬ len = 0 := by omega
  refine ⟨?_, ?_, ?_, ?_, ?_⟩
  · cases hbus : bus (I2cHal.readRegisterCmds addr reg len) <;>
      simp [I2cHal.readRegister, hrun, h0, hbus]
  · intro hlt
    simp only [I2cHal.readRegisterCmds]
    rw [if_pos hlt]
    rfl
  · intro h1
    subst h1
    rfl
  · rcases Nat.lt_or_ge 1 len with hlt | hle
    · simp only [I2cHal.readRegisterCmds]
      rw [if_pos hlt]
      rfl
    · have h1 : len = 1 := by omega
      subst h1
      rfl
  · rcases Nat.lt_or_ge 1 len with hlt | hle
    · simp only [I2cHal.readRegisterCmds]
      rw [if_pos hlt]
      rfl
    · have h1 : len = 1 := by omega
      subst h1
      rfl

/-- C5 witness: reading 3 bytes of register 0x75 of device 0x68 builds
the exact eight-command link, and `length = 0` is rejected with the
caller's vector untouched and no transaction executed. -/
theorem i2c_readRegister_framing_C5_witness :
    I2cHal.readRegister failBusFx i2cRunningFx 0x68 0x75 0 [7] =
      (.ESP_ERR_INVALID_ARG, [7], []) ∧
    (I2cHal.readRegister failBusFx i2cRunningFx 0x68 0x75 3 []).2.2 =
      [I2cHal.readRegisterCmds 0x68 0x75 3] ∧
    I2cHal.readRegisterCmds 0x68 0x75 3 =
      [.start, .writeByte 0xD0 true, .writeByte 0x75 true,
       .start, .writeByte 0xD1 true, .readBytes 2, .readByteNack, .stop] ∧
    (I2cHal.readRegisterCmds 0x68 0x75 3).count .stop = 1 ∧
    (I2cHal.readRegisterCmds 0x68 0x75 3).getLast? = some .stop := by
  have ha := i2c_readRegister_framing_C5 failBusFx i2cRunningFx 0x68 0x75 3 [7] rfl
  have hb := (i2c_readRegister_framing_C5 failBusFx i2cRunningFx 0x68 0x75 3 [] rfl).2 (by decide)
  exact ⟨ha.1, hb.1, hb.2.1 (by decide), hb.2.2.2.1, hb.2.2.2.2⟩

/-- C9: when `i2c_master_cmd_begin` fails, both `I2cHal::read` and
`I2cHal::readRegister` clear the caller's output vector to empty before
returning the error, so a failed read never yields partial bytes. -/
theorem i2c_failed_read_clears_C9 (bus : I2cHal.Bus) (s : I2cHal.I2cState)
    (addr reg len : Nat) (data : List Nat) (e : EspErr)
    (hrun : s.state.isRunning = true) (hlen : 1 ≤ len) :
    (bus (I2cHal.readCmds addr len) = .error e →
      I2cHal.read bus s addr len data = (e, [], [I2cHal.readCmds addr len])) ∧
    (bus (I2cHal.readRegisterCmds addr reg len) = .error e →
      I2cHal.readRegister bus s addr reg len data =
        (e, [], [I2cHal.readRegisterCmds addr reg len])) := by
  have h0 : ¬ len = 0 := by omega
  constructor
  · intro hbus
    simp [I2cHal.read, hrun, h0, hbus]
  · intro hbus
    simp [I2cHal.readRegister, hrun, h0, hbus]

/-- C9 witness: on a bus where every transaction times out, a 4-byte
read into a non-empty caller vector returns the timeout with the vector
cleared, and likewise for a register read. -/
theorem i2c_failed_read_clears_C9_witness :
    I2cHal.read failBusFx i2cRunningFx 0x68 4 [1, 2, 3] =
      (.ESP_ERR_TIMEOUT, [], [I2cHal.readCmds 0x68 4]) ∧
    I2cHal.readRegister failBusFx i2cRunningFx 0x68 0x75 4 [1, 2, 3] =
      (.ESP_ERR_TIMEOUT, [], [I2cHal.readRegisterCmds 0x68 0x75 4]) := by
  have h := i2c_failed_read_clears_C9 failBusFx i2cRunningFx 0x68 0x75 4 [1, 2, 3]
    .ESP_ERR_TIMEOUT rfl (by decide)
  exact ⟨h.1 rfl, h.2 rfl⟩

/-- C4 counterexample: `GpioHal::setInterrupt` performs no already-bound
check. On a state whose pin 4 is already bound to callback token 1,
binding pin 4 again (callback token 2) does not fail with an
already-bound error: it succeeds and replaces the existing binding. -/
theorem resource_binding_C4_counterexample :
    gpioBoundFx.callbacks.lookup 4 = some 1 ∧
    (GpioHal.setInterrupt gpioHwFx gpioBoundFx 4 .POSEDGE 2).1 = .ESP_OK ∧
    (GpioHal.setInterrupt gpioHwFx gpioBoundFx 4 .POSEDGE 2).2.callbacks.lookup 4 = some 2 := by
  exact ⟨rfl, rfl, rfl⟩

/-- C4 (amended): for timer ids and interrupt ids, binding an id that is
already bound fails with `ESP_ERR_INVALID_ARG` — the code's
already-bound error — and leaves the existing binding unchanged, and
after an unbind, rebinding the same id succeeds and stores the new
binding; `GpioHal::setInterrupt`, however, performs no already-bound
check: binding an already-bound pin succeeds and replaces the existing
callback. -/
theorem resource_binding_C4 :
    (∀ (κ : Type) (hw : InterruptHal.Hw) (s : InterruptHal.IState κ) (id : Nat)
       (cfg : InterruptHal.SourceConfig) (handler : Option κ)
       (info : InterruptHal.InterruptInfo κ),
       s.state.isRunning = true → s.interrupts.lookup id = some info →
       InterruptHal.registerInterrupt hw s id cfg handler = (.ESP_ERR_INVALID_ARG, s)) ∧
    (∀ (κ : Type) (hw : InterruptHal.Hw) (s : InterruptHal.IState κ) (id : Nat)
       (cfg : InterruptHal.TimerConfig) (cb : Option κ) (info : InterruptHal.TimerInfo κ),
       s.state.isRunning = true → s.timers.lookup id = some info →
       InterruptHal.createHighResTimer hw s id cfg cb = (.ESP_ERR_INVALID_ARG, s)) ∧
    (∀ (κ : Type) (hw : InterruptHal.Hw) (s : InterruptHal.IState κ) (id : Nat)
       (cfg : InterruptHal.SourceConfig) (handler : Option κ)
       (info : InterruptHal.InterruptInfo κ),
       s.state.isRunning = true → s.interrupts.lookup id = some info →
       hw.intr_free id = .ESP_OK → hw.intr_alloc id = .ESP_OK →
       (InterruptHal.unregisterInterrupt hw s id).1 = .ESP_OK ∧
       (InterruptHal.registerInterrupt hw (InterruptHal.unregisterInterrupt hw s id).2
           id cfg handler).1 = .ESP_OK ∧
       (InterruptHal.registerInterrupt hw (InterruptHal.unregisterInterrupt hw s id).2
           id cfg handler).2.interrupts.lookup id =
         some { config := cfg, handler := handler, stats := InterruptHal.Statistics.empty }) ∧
    (∀ (κ : Type) (hw : InterruptHal.Hw) (s : InterruptHal.IState κ) (id : Nat)
       (cfg : InterruptHal.TimerConfig) (cb : Option κ) (info : InterruptHal.TimerInfo κ),
       s.state.isRunning = true → s.timers.lookup id = some info →
       hw.timer_create id = .ESP_OK →
       (InterruptHal.deleteTimer s id).1 = .ESP_OK ∧
       (InterruptHal.createHighResTimer hw (InterruptHal.deleteTimer s id).2 id cfg cb).1 =
         .ESP_OK ∧
       (InterruptHal.createHighResTimer hw (InterruptHal.deleteTimer s id).2
           id cfg cb).2.timers.lookup id =
         some { config := cfg, callback := cb, stats := InterruptHal.Statistics.empty }) ∧
    (∀ (κ : Type) (hw : GpioHal.Hw) (s : GpioHal.GpioState κ) (pin : Nat)
       (t : GpioHal.InterruptType) (cb old : κ),
       hw.is_valid_gpio pin = true → hw.set_intr_type pin t = .ESP_OK →
       hw.isr_handler_add pin = .ESP_OK → s.isr_service_installed = true →
       s.callbacks.lookup pin = some old →
       (GpioHal.setInterrupt hw s pin t cb).1 = .ESP_OK ∧
       (GpioHal.setInterrupt hw s pin t cb).2.callbacks.lookup pin = some cb) := by
  refine ⟨?_, ?_, ?_, ?_, ?_⟩
  · intro κ hw s id cfg handler info hrun hlk
    simp [InterruptHal.registerInterrupt, hrun, hlk]
  · intro κ hw s id cfg cb info hrun hlk
    simp [InterruptHal.createHighResTimer, hrun, hlk]
  · intro κ hw s id cfg handler info hrun hlk hfree halloc
    have hunreg : InterruptHal.unregisterInterrupt hw s id =
        (.ESP_OK, { s with interrupts := mapErase s.interrupts id }) := by
      simp [InterruptHal.unregisterInterrupt, hlk, hfree]
    rw [hunreg]
    refine ⟨rfl, ?_, ?_⟩ <;>
      simp [InterruptHal.registerInterrupt, hrun, lookup_mapErase, halloc, lookup_mapInsert]
  · intro κ hw s id cfg cb info hrun hlk hcreate
    have hdel : InterruptHal.deleteTimer s id =
        (.ESP_OK, { s with timers := mapErase s.timers id }) := by
      simp [InterruptHal.deleteTimer, hlk]
    rw [hdel]
    refine ⟨rfl, ?_, ?_⟩ <;>
      simp [InterruptHal.createHighResTimer, hrun, lookup_mapErase, hcreate, lookup_mapInsert]
  · intro κ hw s pin t cb old hvalid hset hadd hinst hlk
    cases hpc : s.pin_configs.lookup pin <;>
      simp [GpioHal.setInterrupt, GpioHal.installIsrService, hvalid, hset, hadd, hinst, hpc,
        lookup_mapInsert]

/-- C4 witness: interrupt id 7 is already bound, so a second
registration fails with `ESP_ERR_INVALID_ARG` and the state is
unchanged; after unregistering, re-registration succeeds and stores the
new handler; on the GPIO side, rebinding the bound pin 4 silently
replaces its callback. -/
theorem resource_binding_C4_witness :
    InterruptHal.registerInterrupt intrHwFx intrStateFx 7 intrInfoFx.config (some 9) =
      (.ESP_ERR_INVALID_ARG, intrStateFx) ∧
    (InterruptHal.unregisterInterrupt intrHwFx intrStateFx 7).1 = .ESP_OK ∧
    (InterruptHal.registerInterrupt intrHwFx
        (InterruptHal.unregisterInterrupt intrHwFx intrStateFx 7).2 7
        intrInfoFx.config (some 11)).2.interrupts.lookup 7 =
      some { config := intrInfoFx.config, handler := some 11,
             stats := InterruptHal.Statistics.empty } ∧
    (GpioHal.setInterrupt gpioHwFx gpioBoundFx 4 .POSEDGE 2).2.callbacks.lookup 4 = some 2 := by
  obtain ⟨hA, hB, hC, hD, hE⟩ := resource_binding_C4
  have hc := hC Nat intrHwFx intrStateFx 7 intrInfoFx.config (some 11) intrInfoFx
    rfl rfl rfl rfl
  exact ⟨hA Nat intrHwFx intrStateFx 7 intrInfoFx.config (some 9) intrInfoFx rfl rfl,
         hc.1, hc.2.2,
         (hE Nat gpioHwFx gpioBoundFx 4 .POSEDGE 2 1 rfl rfl rfl rfl rfl).2⟩

/-- C8: `I2cHal::scanBus` on a running bus returns the addresses in
0x08..0x77 that acknowledge the presence probe, in ascending order, and
on a bus acknowledging exactly 0x23 and 0x68 the result is exactly
[0x23, 0x68]. -/
theorem i2c_scanBus_C8 (bus : I2cHal.Bus) (s : I2cHal.I2cState)
    (hrun : s.state.isRunning = true) :
    ∃ found, I2cHal.scanBus bus s = .ok found ∧
      List.Sorted (· < ·) found ∧
      (∀ a, a ∈ found ↔ (0x08 ≤ a ∧ a ≤ 0x77 ∧ I2cHal.deviceExists bus s a = true)) ∧
      ((∀ a, 0x08 ≤ a → a ≤ 0x77 →
          (I2cHal.deviceExists bus s a = true ↔ (a = 0x23 ∨ a = 0x68))) →
        found = [0x23, 0x68]) := by
  refine ⟨(List.range' 0x08 0x70).filter (fun addr => I2cHal.deviceExists bus s addr),
    by simp [I2cHal.scanBus, hrun], (List.pairwise_lt_range' 0x08 0x70).filter _, ?_, ?_⟩
  · intro a
    rw [List.mem_filter, List.mem_range'_1]
    constructor
    · rintro ⟨⟨ha1, ha2⟩, ha3⟩
      exact ⟨ha1, by omega, ha3⟩
    · rintro ⟨ha1, ha2, ha3⟩
      exact ⟨⟨ha1, by omega⟩, ha3⟩
  · intro hb
    have hcongr : ∀ a ∈ List.range' 0x08 0x70,
        I2cHal.deviceExists bus s a = ((a == 0x23) || (a == 0x68)) := by
      intro a ha
      rw [List.mem_range'_1] at ha
      cases hd : I2cHal.deviceExists bus s a with
      | false =>
        have hnot : ¬ (a = 0x23 ∨ a = 0x68) := by
          intro hor
          have := (hb a ha.1 (by omega)).mpr hor
          rw [hd] at this
          exact Bool.noConfusion this
        have h35 : a ≠ 0x23 := fun h => hnot (Or.inl h)
        have h68 : a ≠ 0x68 := fun h => hnot (Or.inr h)
        simp [h35, h68]
      | true =>
        have hor := (hb a ha.1 (by omega)).mp hd
        rcases hor with h | h <;> simp [h]
    rw [List.filter_congr hcongr]
    decide

/-- C8 witness: the mock bus acknowledging only 0x23 and 0x68 scans to
exactly [0x23, 0x68]. -/
theorem i2c_scanBus_C8_witness :
    (∃ found, I2cHal.scanBus mockBusFx i2cRunningFx = .ok found ∧
      List.Sorted (· < ·) found ∧
      (∀ a, a ∈ found ↔
        (0x08 ≤ a ∧ a ≤ 0x77 ∧ I2cHal.deviceExists mockBusFx i2cRunningFx a = true)) ∧
      ((∀ a, 0x08 ≤ a → a ≤ 0x77 →
          (I2cHal.deviceExists mockBusFx i2cRunningFx a = true ↔ (a = 0x23 ∨ a = 0x68))) →
        found = [0x23, 0x68])) ∧
    I2cHal.scanBus mockBusFx i2cRunningFx = .ok [0x23, 0x68] := by
  exact ⟨i2c_scanBus_C8 mockBusFx i2cRunningFx rfl, by rfl⟩

/-- Characterization of `AdcHal::readFiltered` on a channel that already
has a filter value: the EMA recurrence is applied, the (unrounded)
filtered value is stored, its truncation becomes the returned code, and
the voltage is the re-conversion with the raw sample's voltage as the
untouched-on-failure fallback. -/
theorem readFiltered_subsequent_eq (hw : AdcHal.Hw) (s : AdcHal.AdcState)
    (channel : Nat) (alpha : ℚ) (r : AdcHal.ReadResult) (prev : ℚ)
    (hrun : s.state.isRunning = true)
    (halpha : ¬ (alpha < 0 ∨ 1 < alpha))
    (hread : AdcHal.read hw s channel = .ok r)
    (hlk : s.filter_values.lookup channel = some prev) :
    AdcHal.readFiltered hw s channel alpha =
      .ok ({ raw_value := cppTrunc (alpha * (r.raw_value : ℚ) + (1 - alpha) * prev),
             voltage_mv := AdcHal.refilterConvert s channel
               (cppTrunc (alpha * (r.raw_value : ℚ) + (1 - alpha) * prev)) r.voltage_mv,
             calibrated := r.calibrated },
           { s with filter_values := mapInsert s.filter_values channel (alpha * (r.raw_value : ℚ) + (1 - alpha) * prev) }) := by
  simp [AdcHal.readFiltered, hrun, halpha, hread, hlk]

/-- C2 (amended): `readFiltered` validates `alpha ∈ [0,1]` (else
`ESP_ERR_INVALID_ARG`); the first call on a channel seeds the filter
with the raw sample and returns it unfiltered; each later call computes
`filtered = alpha*raw + (1-alpha)*previous`, stores `filtered`, and
truncates it to an integer code. The code is then reconverted: through
the calibration handle when present and succeeding (agreeing with
`read`'s conversion), and through the linear estimate when no handle
exists (again agreeing with `read`); but when the handle is present and
the conversion of the filtered code fails, the failure is ignored and
the voltage computed for the raw, unfiltered sample is kept — not
`read`'s linear fallback. -/
theorem adc_readFiltered_ema_C2 :
    (∀ (hw : AdcHal.Hw) (s : AdcHal.AdcState) (channel : Nat) (alpha : ℚ),
       s.state.isRunning = true → (alpha < 0 ∨ 1 < alpha) →
       AdcHal.readFiltered hw s channel alpha = .error .ESP_ERR_INVALID_ARG) ∧
    (∀ (hw : AdcHal.Hw) (s : AdcHal.AdcState) (channel : Nat) (alpha : ℚ)
       (r : AdcHal.ReadResult),
       s.state.isRunning = true → ¬ (alpha < 0 ∨ 1 < alpha) →
       AdcHal.read hw s channel = .ok r →
       s.filter_values.lookup channel = none →
       AdcHal.readFiltered hw s channel alpha =
         .ok (r, { s with filter_values := mapInsert s.filter_values channel ((r.raw_value : ℚ)) })) ∧
    (∀ (hw : AdcHal.Hw) (s : AdcHal.AdcState) (channel : Nat) (alpha : ℚ)
       (r : AdcHal.ReadResult) (prev : ℚ),
       s.state.isRunning = true → ¬ (alpha < 0 ∨ 1 < alpha) →
       AdcHal.read hw s channel = .ok r →
       s.filter_values.lookup channel = some prev →
       AdcHal.readFiltered hw s channel alpha =
         .ok ({ raw_value := cppTrunc (alpha * (r.raw_value : ℚ) + (1 - alpha) * prev),
                voltage_mv := AdcHal.refilterConvert s channel
                  (cppTrunc (alpha * (r.raw_value : ℚ) + (1 - alpha) * prev)) r.voltage_mv,
                calibrated := r.calibrated },
              { s with filter_values := mapInsert s.filter_values channel (alpha * (r.raw_value : ℚ) + (1 - alpha) * prev) })) ∧
    (∀ (s : AdcHal.AdcState) (channel : Nat) (code fb : Int),
       s.calibration_handles.lookup channel = none →
       AdcHal.refilterConvert s channel code fb = (AdcHal.readConvert s channel code).1) ∧
    (∀ (s : AdcHal.AdcState) (channel : Nat) (code fb : Int)
       (cal : AdcHal.CalHandle) (w : Int),
       s.calibration_handles.lookup channel = some cal → cal code = some w →
       AdcHal.refilterConvert s channel code fb = w ∧
       (AdcHal.readConvert s channel code).1 = w) ∧
    (∀ (s : AdcHal.AdcState) (channel : Nat) (code fb : Int) (cal : AdcHal.CalHandle),
       s.calibration_handles.lookup channel = some cal → cal code = none →
       AdcHal.refilterConvert s channel code fb = fb ∧
       (AdcHal.readConvert s channel code).1 =
         AdcHal.linearEstimate code s.config.default_vref) := by
  refine ⟨?_, ?_, ?_, ?_, ?_, ?_⟩
  · intro hw s channel alpha hrun halpha
    simp [AdcHal.readFiltered, hrun, halpha]
  · intro hw s channel alpha r hrun halpha hread hlk
    simp [AdcHal.readFiltered, hrun, halpha, hread, hlk]
  · intro hw s channel alpha r prev hrun halpha hread hlk
    exact readFiltered_subsequent_eq hw s channel alpha r prev hrun halpha hread hlk
  · intro s channel code fb hlk
    simp [AdcHal.refilterConvert, AdcHal.readConvert, hlk]
  · intro s channel code fb cal w hlk hcal
    constructor <;> simp [AdcHal.refilterConvert, AdcHal.readConvert, hlk, hcal]
  · intro s channel code fb cal hlk hcal
    constructor <;> simp [AdcHal.refilterConvert, AdcHal.readConvert, hlk, hcal]

/-- C2 counterexample to the claim as stated: on a channel with a
calibration context, the truncated filtered code is NOT reconverted
through the same calibration path as `read`. With `calFx` (succeeds only
on code 100), raw sample 100, previous filter value 50 and `alpha = 0`:
the filtered code is 50, `readFiltered` keeps the raw sample's voltage
120 mV (the failed conversion of code 50 is ignored), while `read`'s
conversion path applied to code 50 yields the linear estimate 13 mV. -/
theorem adc_readFiltered_ema_C2_counterexample :
    cppTrunc ((0 : ℚ) * ((100 : Int) : ℚ) + (1 - 0) * 50) = 50 ∧
    (AdcHal.readFiltered adcHw100Fx adcCalFx 3 0).toOption.map (fun p => p.1) =
      some { raw_value := 50, voltage_mv := 120, calibrated := true } ∧
    (AdcHal.readConvert adcCalFx 3 50).1 = 13 ∧
    (120 : Int) ≠ 13 := by
  have hread : AdcHal.read adcHw100Fx adcCalFx 3 =
      .ok { raw_value := 100, voltage_mv := 120, calibrated := true } := rfl
  have hq : (0 : ℚ) * ((100 : Int) : ℚ) + (1 - 0) * 50 = 50 := by norm_num
  have htr : cppTrunc ((0 : ℚ) * ((100 : Int) : ℚ) + (1 - 0) * 50) = 50 := by
    rw [hq]
    decide
  have h := readFiltered_subsequent_eq adcHw100Fx adcCalFx 3 0
    { raw_value := 100, voltage_mv := 120, calibrated := true } 50
    rfl (by norm_num) hread rfl
  rw [htr] at h
  have hrc : AdcHal.refilterConvert adcCalFx 3 50 120 = 120 := by decide
  rw [hrc] at h
  refine ⟨htr, ?_, by decide, by decide⟩
  rw [h]
  rfl

/-- C2 witness: an out-of-range coefficient `alpha = 2` is rejected on a
running unit, and on the calibrated fixture a subsequent filtered read
with `alpha = 0` returns the truncated filtered code 50. -/
theorem adc_readFiltered_ema_C2_witness :
    AdcHal.readFiltered adcHwFx adcRunningFx 3 2 = .error .ESP_ERR_INVALID_ARG ∧
    (AdcHal.readFiltered adcHw100Fx adcCalFx 3 0).toOption.map (fun p => p.1.raw_value) =
      some 50 := by
  obtain ⟨hA, hB, hC, _, _, _⟩ := adc_readFiltered_ema_C2
  constructor
  · exact hA adcHwFx adcRunningFx 3 2 rfl (by norm_num)
  · have hread : AdcHal.read adcHw100Fx adcCalFx 3 =
        .ok { raw_value := 100, voltage_mv := 120, calibrated := true } := rfl
    have h := hC adcHw100Fx adcCalFx 3 0
      { raw_value := 100, voltage_mv := 120, calibrated := true } 50
      rfl (by norm_num) hread rfl
    have htr : cppTrunc ((0 : ℚ) * ((100 : Int) : ℚ) + (1 - 0) * 50) = 50 := by
      rw [show (0 : ℚ) * ((100 : Int) : ℚ) + (1 - 0) * 50 = 50 from by norm_num]
      decide
    rw [htr] at h
    rw [h]
    rfl

end hal
